import Mathlib

/-!
Verification of the rule-based property-recommendation engine
(`process_user_input` / `generate_recommendation` in `ignore/5_Chdat.py`).

The embedding works over exact rationals (`ℚ`) in place of Python floats;
the one place where float semantics is observable — the divide-by-zero in
the price normalization when every candidate shares one price, which in
float arithmetic yields `0.0 / 0.0 = NaN` — is modelled explicitly with
`Option ℚ`, where `none` stands for NaN.

Strings are modelled as `String` / `List Char`; Python's `in` substring
test, `str.lower`, and the numeric-token regex `\d+(?:\.\d+)?` are given
executable models below.
-/

namespace Khe

/-- A row of the cleaned dataset (§3 of the spec): the columns the engine
reads.  `price` is already parsed to a number, column names are
lower-snake-cased. -/
structure Listing where
  price : ℚ
  neighbourhood : String
  room_type : String
  review_rate_number : ℚ
  number_of_reviews : ℚ
  availability_365 : ℚ
  instant_bookable : String
  host_identity_verified : String
deriving DecidableEq, Repr

/-- The preference dictionary built by `process_user_input` (lines 43-49):
five optional fields, all `None` when unset. -/
structure PreferenceRecord where
  budget : Option ℚ
  neighborhood : Option String
  room_type : Option String
  min_rating : Option ℚ
  instant_book : Option Bool
deriving DecidableEq, Repr

/-- The all-`None` record that each call to `process_user_input` resets the
session preferences to (lines 43-49). -/
def emptyPreferences : PreferenceRecord :=
  { budget := none, neighborhood := none, room_type := none,
    min_rating := none, instant_book := none }

/-- `needle.isPrefixL hay`: the first list starts the second
(char-by-char). -/
def isPrefixL : List Char → List Char → Bool
  | [], _ => true
  | _ :: _, [] => false
  | c :: cs, d :: ds => c == d && isPrefixL cs ds

/-- Python's substring test `needle in hay` on char lists. -/
def containsSub (hay needle : List Char) : Bool :=
  match hay with
  | [] => needle.isEmpty
  | _ :: t => isPrefixL needle (hay) || containsSub t needle

/-- `str.lower()` (ASCII, which covers every trigger word and the inputs
the claims use). -/
def strLower (s : String) : List Char :=
  s.data.map Char.toLower

/-- The chars of a string literal, unchanged. -/
def lstr (s : String) : List Char :=
  s.data

/-- Split off the maximal leading digit run. -/
def takeDigits : List Char → List Char × List Char
  | [] => ([], [])
  | c :: t =>
    if c.isDigit then
      let (run, rest) := takeDigits t
      (c :: run, rest)
    else ([], c :: t)

/-- Value of a digit run. -/
def digitsToNat (ds : List Char) : Nat :=
  ds.foldl (fun a c => 10 * a + (c.toNat - 48)) 0

/-- Value of a fractional digit run (`ds` read after a decimal point). -/
def fracVal (ds : List Char) : ℚ :=
  (digitsToNat ds : ℚ) / ((10 : ℚ) ^ ds.length)

/-- The first match of the regex `\d+(?:\.\d+)?` in the text, as a number:
Python's `re.findall(...)[0]` followed by `float` (lines 56-58 and 76-78).
The optional `\$?` prefix of the budget regex consumes no digits, so both
scans extract the same leftmost numeric token. -/
def firstNumber : List Char → Option ℚ
  | [] => none
  | c :: t =>
    if c.isDigit then
      let (run, rest) := takeDigits (c :: t)
      match rest with
      | '.' :: r2 =>
        match takeDigits r2 with
        | ([], _) => some (digitsToNat run : ℚ)
        | (frun, _) => some ((digitsToNat run : ℚ) + fracVal frun)
      | _ => some (digitsToNat run : ℚ)
    else firstNumber t

/-- Line 52: `'budget' in input_lower or '$' in input_lower or 'price' in
input_lower`. -/
def budgetTrigger (il : List Char) : Bool :=
  containsSub il (lstr "budget") || containsSub il (lstr "$") ||
    containsSub il (lstr "price")

/-- Line 62. -/
def neighborhoodTrigger (il : List Char) : Bool :=
  containsSub il (lstr "neighborhood") || containsSub il (lstr "area") ||
    containsSub il (lstr "location")

/-- Line 68. -/
def roomTrigger (il : List Char) : Bool :=
  containsSub il (lstr "room") || containsSub il (lstr "property") ||
    containsSub il (lstr "place")

/-- Line 74. -/
def ratingTrigger (il : List Char) : Bool :=
  containsSub il (lstr "rating") || containsSub il (lstr "star") ||
    containsSub il (lstr "review")

/-- Line 82: `('instant' in input_lower and 'book' in input_lower) or
'quick' in input_lower`. -/
def instantTrigger (il : List Char) : Bool :=
  (containsSub il (lstr "instant") && containsSub il (lstr "book")) ||
    containsSub il (lstr "quick")

/-- Lines 63-66 (and 69-72): scan the vocabulary in order, pick the first
entry whose lowercase form occurs in the lowercased input. -/
def findVocab (il : List Char) : List String → Option String
  | [] => none
  | v :: rest =>
    if containsSub il (strLower v) then some v else findVocab il rest

/-- Lines 51-83 of `process_user_input`: the five independent extractions,
applied to a starting record.  One Python subtlety is kept: line 55 runs
`import re` inside the budget branch, which makes `re` a local name of the
function, so line 76 (the rating scan) raises `UnboundLocalError` whenever
the budget branch did not run; the bare `except: pass` on line 79 swallows
it and `min_rating` stays unset.  Hence the rating extraction fires only
when the budget trigger also fired. -/
def extractInto (start : PreferenceRecord) (input : String)
    (neighborhoods roomTypes : List String) : PreferenceRecord :=
  let il := strLower input
  let p := start
  let p := if budgetTrigger il then
      match firstNumber il with
      | some q => { p with budget := some q }
      | none => p
    else p
  let p := if neighborhoodTrigger il then
      match findVocab il neighborhoods with
      | some v => { p with neighborhood := some v }
      | none => p
    else p
  let p := if roomTrigger il then
      match findVocab il roomTypes with
      | some v => { p with room_type := some v }
      | none => p
    else p
  let p := if ratingTrigger il then
      if budgetTrigger il then
        match firstNumber il with
        | some q => { p with min_rating := some q }
        | none => p
      else p
    else p
  let p := if instantTrigger il then { p with instant_book := some true } else p
  p

/-- The Preference Extractor: lines 40-83 starting from the freshly reset
record of lines 43-49. -/
def extractPreferences (input : String)
    (neighborhoods roomTypes : List String) : PreferenceRecord :=
  extractInto emptyPreferences input neighborhoods roomTypes

/-- The preference-state transition of one `process_user_input` call: the
session record `prev` left by earlier turns is discarded (lines 42-49 reset
every field to `None`) before the extractions run. -/
def processPreferences (_prev : PreferenceRecord) (input : String)
    (neighborhoods roomTypes : List String) : PreferenceRecord :=
  extractInto emptyPreferences input neighborhoods roomTypes

/-! ### Candidate Filter (lines 91-108) -/

/-- Lines 94-108 of `generate_recommendation`: the cascade of masks, one
per preference field.  Each guard is Python truthiness of the stored value
(`if preferences['budget']:` and so on): `None`, the number `0.0` and the
empty string are all falsy, so a field holding `0` or `""` imposes no
constraint, exactly like an unset one. -/
def filterListings (df : List Listing) (p : PreferenceRecord) : List Listing :=
  let f := df
  let f := match p.budget with
    | some b => if b ≠ 0 then f.filter (fun l => l.price ≤ b) else f
    | none => f
  let f := match p.neighborhood with
    | some n => if n ≠ "" then f.filter (fun l => l.neighbourhood == n) else f
    | none => f
  let f := match p.room_type with
    | some rt => if rt ≠ "" then f.filter (fun l => l.room_type == rt) else f
    | none => f
  let f := match p.min_rating with
    | some r => if r ≠ 0 then f.filter (fun l => r ≤ l.review_rate_number) else f
    | none => f
  let f := match p.instant_book with
    | some ib => if ib then f.filter (fun l => l.instant_bookable == "TRUE") else f
    | none => f
  f

/-- The budget predicate, applied only when the field is truthy. -/
def budgetPred (p : PreferenceRecord) (l : Listing) : Bool :=
  match p.budget with
  | some b => if b ≠ 0 then decide (l.price ≤ b) else true
  | none => true

/-- The neighbourhood predicate, applied only when the field is truthy. -/
def neighborhoodPred (p : PreferenceRecord) (l : Listing) : Bool :=
  match p.neighborhood with
  | some n => if n ≠ "" then l.neighbourhood == n else true
  | none => true

/-- The room-type predicate, applied only when the field is truthy. -/
def roomTypePred (p : PreferenceRecord) (l : Listing) : Bool :=
  match p.room_type with
  | some rt => if rt ≠ "" then l.room_type == rt else true
  | none => true

/-- The minimum-rating predicate, applied only when the field is truthy. -/
def ratingPred (p : PreferenceRecord) (l : Listing) : Bool :=
  match p.min_rating with
  | some r => if r ≠ 0 then decide (r ≤ l.review_rate_number) else true
  | none => true

/-- The instant-booking predicate, applied only when the flag is true. -/
def instantPred (p : PreferenceRecord) (l : Listing) : Bool :=
  match p.instant_book with
  | some ib => if ib then l.instant_bookable == "TRUE" else true
  | none => true

/-- Single-pass conjunction of the populated (truthy) predicates — the
normal form the filter cascade is proved equal to. -/
def matchesPreferences (p : PreferenceRecord) (l : Listing) : Bool :=
  budgetPred p l && neighborhoodPred p l && roomTypePred p l &&
    ratingPred p l && instantPred p l

/-- Follows the wording of claim C4, not the source: a predicate applies
whenever its field is set (`isSome`), regardless of the stored value, and
`instant_book` applies when set to `true`. -/
def filterListingsSpec (df : List Listing) (p : PreferenceRecord) : List Listing :=
  df.filter (fun l =>
    (match p.budget with
      | some b => decide (l.price ≤ b)
      | none => true) &&
    (match p.neighborhood with
      | some n => l.neighbourhood == n
      | none => true) &&
    (match p.room_type with
      | some rt => l.room_type == rt
      | none => true) &&
    (match p.min_rating with
      | some r => decide (r ≤ l.review_rate_number)
      | none => true) &&
    (match p.instant_book with
      | some ib => if ib then l.instant_bookable == "TRUE" else true
      | none => true))

/-! ### Scoring & Ranking (lines 114-129) -/

/-- A row of `filtered_df` after the four score columns are added
(lines 114-123).  `price_score` and `total_score` are `Option ℚ` because
the float arithmetic of line 115 produces NaN (`none`) when the subset
price range is zero; `review_score` and `availability_score` divide by the
constants 100 and 365 and are always defined. -/
structure ScoredRow where
  listing : Listing
  review_score : ℚ
  price_score : Option ℚ
  availability_score : ℚ
  total_score : Option ℚ
deriving DecidableEq, Repr

/-- `filtered_df['price'].min()`. -/
def priceMin : List Listing → ℚ
  | [] => 0
  | l :: t => t.foldl (fun m x => min m x.price) l.price

/-- `filtered_df['price'].max()`. -/
def priceMax : List Listing → ℚ
  | [] => 0
  | l :: t => t.foldl (fun m x => max m x.price) l.price

/-- Lines 114-123 for one row, given the subset price extremes.  When
`pmax = pmin` every subset price equals `pmin`, so line 115 computes the
float `0.0 / 0.0 = NaN` (`none` here); line 119's arithmetic then
propagates it into `total_score`. -/
def scoreRow (pmin pmax : ℚ) (l : Listing) : ScoredRow :=
  let rs := l.review_rate_number * min l.number_of_reviews 100 / 100
  let ps : Option ℚ :=
    if pmax - pmin = 0 then none
    else some (1 - (l.price - pmin) / (pmax - pmin))
  let avs := l.availability_365 / 365
  { listing := l
    review_score := rs
    price_score := ps
    availability_score := avs
    total_score := ps.map (fun x => rs * 0.4 + x * 0.4 + avs * 0.2) }

/-- Lines 114-123 over the whole subset: every row is scored against the
subset-wide price minimum and maximum. -/
def scoreSubset (subset : List Listing) : List ScoredRow :=
  subset.map (scoreRow (priceMin subset) (priceMax subset))

/-- The ordering key of line 126's `sort_values('total_score',
ascending=False)`: larger scores first, NaN (`none`) last. -/
def scoreGe : Option ℚ → Option ℚ → Bool
  | some a, some b => a ≥ b
  | some _, none => true
  | none, some _ => false
  | none, none => true

/-- Line 126.  `sort_values` with its default `kind='quicksort'` leaves the
relative order of equal keys implementation-defined; this model fixes one
concrete order (a stable sort).  The theorems below that go through this
definition use only facts independent of the tie order. -/
def sortScored (rows : List ScoredRow) : List ScoredRow :=
  List.insertionSort (fun a b => scoreGe a.total_score b.total_score = true) rows

/-! ### Response assembly (lines 110-111, 128-129, 135, 177-180) -/

/-- Line 111, the fallback text returned when the filtered subset is
empty. -/
def noMatchMessage : String :=
  "I couldn't find any properties matching your exact preferences. Try adjusting your criteria - perhaps consider a different neighborhood or increasing your budget slightly."

/-- Lines 179-180, the sentence reporting the `k` matches not shown. -/
def moreMessage (k : Nat) : String :=
  "I found " ++ toString k ++ " more properties matching your criteria. Would you like to see more options or refine your search?"

/-- The outcome of `generate_recommendation`, at the structure the claims
talk about: either the fallback message (line 111), or a report carrying
the ranked top properties of line 129, the `total_matches` count of line
177 and the optional more-matches sentence of lines 178-180.  The
per-property text of lines 135-175 and the market-insight line are string
formatting over these fields and are not modelled further. -/
inductive Response where
  | fallback (msg : String)
  | report (top : List ScoredRow) (totalMatches : Nat) (more : Option String)
deriving DecidableEq, Repr

/-- Number of properties shown (`0` for the fallback branch). -/
def Response.shownCount : Response → Nat
  | .fallback _ => 0
  | .report top _ _ => top.length

/-- The reported `total_matches`, when the report branch was taken. -/
def Response.reportedMatches : Response → Option Nat
  | .fallback _ => none
  | .report _ n _ => some n

/-- The more-matches sentence, when present. -/
def Response.moreLine : Response → Option String
  | .fallback _ => none
  | .report _ _ m => m

/-- `generate_recommendation` (lines 90-187) over an explicit dataset and
preference record: filter, short-circuit on empty, score, rank, truncate
to three, report. -/
def generateRecommendation (df : List Listing) (p : PreferenceRecord) : Response :=
  let filtered := filterListings df p
  if filtered.isEmpty then
    .fallback noMatchMessage
  else
    let ranked := sortScored (scoreSubset filtered)
    let top := ranked.take 3
    let totalMatches := ranked.length
    let more := if totalMatches > 3 then some (moreMessage (totalMatches - 3)) else none
    .report top totalMatches more

/-! ### Heap model of the dataframe objects (for the frame property) -/

/-- A pandas dataframe object as the engine sees it: either in the loaded
dataset's shape (no score columns), or a frame carrying the four score
columns added by lines 114-123. -/
inductive PyFrame where
  | base (rows : List Listing)
  | scored (rows : List ScoredRow)
deriving DecidableEq, Repr

/-- The heap of dataframe objects; a reference is an index into it. -/
abbrev Store := List PyFrame

/-- Dereference (a dangling reference reads as an empty frame). -/
def Store.get (s : Store) (r : Nat) : PyFrame :=
  (s[r]?).getD (.base [])

/-- Allocate a fresh object, returning the new store and its reference. -/
def Store.alloc (s : Store) (v : PyFrame) : Store × Nat :=
  (s ++ [v], s.length)

/-- The listing rows of a frame, score columns dropped. -/
def PyFrame.baseRows : PyFrame → List Listing
  | .base rows => rows
  | .scored rows => rows.map (fun sr => sr.listing)

/-- Heap-level model of `generate_recommendation`, making the aliasing of
line 91 explicit: the global dataframe lives at `dfRef` and is only read;
`df.copy()` allocates a fresh object, and every later mask selection,
column assignment and sort (lines 95-126) targets only that fresh
reference.  (The mask selections and the sort return new objects rebound to
the same Python local; collapsing the rebinds into in-place updates of the
local's one cell is harmless for the frame property, since either way
`dfRef` is never written.) -/
def generateRecommendationH (s : Store) (dfRef : Nat) (p : PreferenceRecord) :
    Store × Response :=
  let df := (Store.get s dfRef).baseRows
  match Store.alloc s (Store.get s dfRef) with       -- line 91: df.copy()
  | (s1, fRef) =>
    let filtered := filterListings df p
    let s2 := s1.set fRef (.base filtered)           -- lines 95-108
    if filtered.isEmpty then
      (s2, .fallback noMatchMessage)                 -- lines 110-111
    else
      let ranked := sortScored (scoreSubset filtered)
      let s3 := s2.set fRef (.scored (scoreSubset filtered))  -- lines 114-123
      let s4 := s3.set fRef (.scored ranked)                  -- line 126
      (s4, .report (ranked.take 3) ranked.length
        (if ranked.length > 3 then some (moreMessage (ranked.length - 3)) else none))

/-! ### Concrete data used by scenario parts and witnesses -/

/-- A listing with the given price and otherwise fixed, claim-neutral
fields. -/
def mkListing (pr : ℚ) : Listing :=
  { price := pr, neighbourhood := "Harlem", room_type := "Private room",
    review_rate_number := 4, number_of_reviews := 50, availability_365 := 219,
    instant_bookable := "TRUE", host_identity_verified := "verified" }

/-- The three-candidate scenario subset of claim C1: prices 100, 150, 200,
equal ratings and availability. -/
def threeListings : List Listing :=
  [mkListing 100, mkListing 150, mkListing 200]

/-- The two-candidate scenario subset of claim C3: both priced 120. -/
def twoEqualPriced : List Listing :=
  [mkListing 120, mkListing 120]

/-- A four-listing dataset (distinct prices) for the top-three witness. -/
def fourListings : List Listing :=
  [mkListing 100, mkListing 150, mkListing 200, mkListing 250]

/-- A budget set to the falsy number `0`. -/
def budgetZeroPref : PreferenceRecord :=
  { emptyPreferences with budget := some 0 }

/-- A budget no listing of the witness dataset satisfies. -/
def lowBudgetPref : PreferenceRecord :=
  { emptyPreferences with budget := some 50 }

/-! ## Theorems -/

/-- Claim C8: preference extraction is idempotent and history-free — the
record produced by one `process_user_input` call does not depend on the
preference state left by earlier turns (lines 42-49 reset every field
before extracting), and running it twice on the same text and vocabulary
yields the same record. -/
theorem extraction_idempotent_history_free (p1 p2 : PreferenceRecord)
    (input : String) (neighborhoods roomTypes : List String) :
    processPreferences p1 input neighborhoods roomTypes =
      processPreferences p2 input neighborhoods roomTypes ∧
    processPreferences (processPreferences p1 input neighborhoods roomTypes)
        input neighborhoods roomTypes =
      processPreferences p1 input neighborhoods roomTypes :=
  ⟨rfl, rfl⟩

/-- Claim C9: a `budget` (or `min_rating`) field holding `0` filters
exactly like an unset one — the guard is Python truthiness, and `0.0` is
falsy — and concretely a listing priced `100` still passes a budget-`0`
filter. -/
theorem zero_budget_rating_as_unset (df : List Listing) (p : PreferenceRecord) :
    filterListings df { p with budget := some 0 } =
      filterListings df { p with budget := none } ∧
    filterListings df { p with min_rating := some 0 } =
      filterListings df { p with min_rating := none } ∧
    mkListing 100 ∈ filterListings [mkListing 100] budgetZeroPref := by
  refine ⟨?_, ?_, by decide⟩
  · simp [filterListings]
  · simp [filterListings]

/-- Claim C4 counterexample: with `budget = 0` (a set field), the filter of
the code returns the full dataset, while the claim's reading — every set
field constrains — demands the empty list, since no listing has
`price ≤ 0`. -/
theorem filter_budget_zero_counterexample :
    filterListings [mkListing 100] budgetZeroPref ≠
      filterListingsSpec [mkListing 100] budgetZeroPref := by
  decide

/-- One cascade stage (lines 95-96) equals one conjunct-filter. -/
theorem budget_step (p : PreferenceRecord) (f : List Listing) :
    (match p.budget with
      | some b => if b ≠ 0 then f.filter (fun l => l.price ≤ b) else f
      | none => f) = f.filter (fun l => budgetPred p l) := by
  rcases hb : p.budget with _ | b
  · simp [budgetPred, hb]
  · simp only [budgetPred, hb]
    split_ifs <;> simp

/-- One cascade stage (lines 98-99) equals one conjunct-filter. -/
theorem neighborhood_step (p : PreferenceRecord) (f : List Listing) :
    (match p.neighborhood with
      | some n => if n ≠ "" then f.filter (fun l => l.neighbourhood == n) else f
      | none => f) = f.filter (fun l => neighborhoodPred p l) := by
  rcases hn : p.neighborhood with _ | n
  · simp [neighborhoodPred, hn]
  · simp only [neighborhoodPred, hn]
    split_ifs <;> simp

/-- One cascade stage (lines 101-102) equals one conjunct-filter. -/
theorem room_type_step (p : PreferenceRecord) (f : List Listing) :
    (match p.room_type with
      | some rt => if rt ≠ "" then f.filter (fun l => l.room_type == rt) else f
      | none => f) = f.filter (fun l => roomTypePred p l) := by
  rcases hr : p.room_type with _ | rt
  · simp [roomTypePred, hr]
  · simp only [roomTypePred, hr]
    split_ifs <;> simp

/-- One cascade stage (lines 104-105) equals one conjunct-filter. -/
theorem rating_step (p : PreferenceRecord) (f : List Listing) :
    (match p.min_rating with
      | some r => if r ≠ 0 then f.filter (fun l => r ≤ l.review_rate_number) else f
      | none => f) = f.filter (fun l => ratingPred p l) := by
  rcases hr : p.min_rating with _ | r
  · simp [ratingPred, hr]
  · simp only [ratingPred, hr]
    split_ifs <;> simp

/-- One cascade stage (lines 107-108) equals one conjunct-filter. -/
theorem instant_step (p : PreferenceRecord) (f : List Listing) :
    (match p.instant_book with
      | some ib => if ib then f.filter (fun l => l.instant_bookable == "TRUE") else f
      | none => f) = f.filter (fun l => instantPred p l) := by
  rcases hi : p.instant_book with _ | ib
  · simp [instantPred, hi]
  · simp only [instantPred, hi]
    split_ifs <;> simp

/-- Claim C4 (amended): the Candidate Filter returns exactly the listings
satisfying the conjunction of the predicates for the *truthy* fields
(`price ≤ budget` when budget is set and nonzero, neighbourhood equality
when set and non-empty, room-type equality when set and non-empty,
`review_rate_number ≥ min_rating` when min_rating is set and nonzero,
`instant_bookable = "TRUE"` when instant_book is set true); non-truthy
fields impose no constraint, and with all five fields unset the filter
returns the full dataset unchanged. -/
theorem candidate_filter_truthy_conjunction (df : List Listing) (p : PreferenceRecord) :
    filterListings df p = df.filter (fun l => matchesPreferences p l) ∧
    filterListings df emptyPreferences = df := by
  refine ⟨?_, rfl⟩
  simp only [filterListings]
  rw [budget_step, neighborhood_step, room_type_step, rating_step, instant_step]
  simp only [List.filter_filter]
  apply List.filter_congr
  intro a _
  simp only [matchesPreferences]
  cases budgetPred p a <;> cases neighborhoodPred p a <;> cases roomTypePred p a <;>
    cases ratingPred p a <;> cases instantPred p a <;> rfl

/-- Claim C5: when the filtered subset is empty, `generate_recommendation`
returns the single fallback suggestion string of line 111; the scoring,
ranking and candidate-rendering steps are skipped (the result is the
`fallback` branch, carrying no scored candidates), and no exception is
involved. -/
theorem empty_subset_fallback (df : List Listing) (p : PreferenceRecord)
    (h : filterListings df p = []) :
    generateRecommendation df p = .fallback noMatchMessage := by
  simp [generateRecommendation, h]

/-- Witness for C5: one listing priced 100 against a budget of 50. -/
theorem empty_subset_fallback_witness :
    generateRecommendation [mkListing 100] lowBudgetPref = .fallback noMatchMessage :=
  empty_subset_fallback [mkListing 100] lowBudgetPref (by decide)

/-- Claim C1: on a non-empty subset whose price range is non-degenerate,
the engine computes, for every candidate, exactly
`review_score = review_rate_number * min(number_of_reviews, 100) / 100`,
`price_score = 1 - (price - min) / (max - min)` over the subset extremes,
`availability_score = availability_365 / 365`, and
`total_score = 0.4 * review_score + 0.4 * price_score +
0.2 * availability_score`; in particular the three-candidate subset with
prices [100, 150, 200] gets price_scores [1, 1/2, 0]. -/
theorem scoring_formulas :
    (∀ subset : List Listing, subset ≠ [] → priceMax subset ≠ priceMin subset →
      scoreSubset subset = subset.map (fun l =>
        { listing := l
          review_score := l.review_rate_number * min l.number_of_reviews 100 / 100
          price_score :=
            some (1 - (l.price - priceMin subset) / (priceMax subset - priceMin subset))
          availability_score := l.availability_365 / 365
          total_score :=
            some (0.4 * (l.review_rate_number * min l.number_of_reviews 100 / 100) +
              0.4 * (1 - (l.price - priceMin subset) / (priceMax subset - priceMin subset)) +
              0.2 * (l.availability_365 / 365)) })) ∧
    (scoreSubset threeListings).map (fun s => s.price_score) =
      [some 1, some (1 / 2), some 0] := by
  constructor
  · intro subset _ hpm
    have hd : priceMax subset - priceMin subset ≠ 0 := sub_ne_zero_of_ne hpm
    unfold scoreSubset
    apply List.map_congr_left
    intro l _
    simp only [scoreRow, if_neg hd, Option.map_some', ScoredRow.mk.injEq, Option.some.injEq,
      eq_self_iff_true, true_and]
    ring
  · norm_num [scoreSubset, scoreRow, priceMin, priceMax, threeListings, mkListing]

/-- Witness for C1 at the three-candidate scenario subset. -/
theorem scoring_formulas_witness :
    threeListings ≠ [] ∧ priceMax threeListings ≠ priceMin threeListings ∧
    scoreSubset threeListings = threeListings.map (fun l =>
      { listing := l
        review_score := l.review_rate_number * min l.number_of_reviews 100 / 100
        price_score :=
          some (1 - (l.price - priceMin threeListings) /
            (priceMax threeListings - priceMin threeListings))
        availability_score := l.availability_365 / 365
        total_score :=
          some (0.4 * (l.review_rate_number * min l.number_of_reviews 100 / 100) +
            0.4 * (1 - (l.price - priceMin threeListings) /
              (priceMax threeListings - priceMin threeListings)) +
            0.2 * (l.availability_365 / 365)) }) :=
  ⟨by decide, by decide, scoring_formulas.1 threeListings (by decide) (by decide)⟩

/-- Claim C3 counterexample: on the two-candidate subset with both prices
equal to 120, `price_score` (and hence `total_score`) is NaN — modelled as
`none` — for both candidates: the degenerate zero-price-range division is
not handled defensively; the undefined value propagates. -/
theorem price_score_nan_counterexample :
    (scoreSubset twoEqualPriced).map (fun s => s.price_score) = [none, none] ∧
    (scoreSubset twoEqualPriced).map (fun s => s.total_score) = [none, none] := by
  norm_num [scoreSubset, scoreRow, priceMin, priceMax, twoEqualPriced, mkListing]

/-- Claim C3 (amended): when every candidate of a non-empty subset shares
one price, no exception is raised (scoring is a total function), but
`price_score` is NaN (`none`) for every candidate — and it propagates into
`total_score` — rather than being a defined numeric value. -/
theorem zero_price_range_propagates_nan (subset : List Listing)
    (_hne : subset ≠ []) (heq : priceMax subset = priceMin subset) :
    (scoreSubset subset).map (fun s => s.price_score) =
      List.replicate subset.length none ∧
    (scoreSubset subset).map (fun s => s.total_score) =
      List.replicate subset.length none := by
  have hd : priceMax subset - priceMin subset = 0 := sub_eq_zero_of_eq heq
  constructor <;>
  · rw [List.eq_replicate_iff]
    refine ⟨by simp [scoreSubset], ?_⟩
    intro b hb
    simp only [scoreSubset, List.map_map, List.mem_map, Function.comp] at hb
    obtain ⟨l, -, rfl⟩ := hb
    simp [scoreRow, if_pos hd]

/-- Witness for C3's amended statement at the two-candidate subset. -/
theorem zero_price_range_nan_witness :
    priceMax twoEqualPriced = priceMin twoEqualPriced ∧
    (scoreSubset twoEqualPriced).map (fun s => s.price_score) =
      List.replicate twoEqualPriced.length none :=
  ⟨by decide, (zero_price_range_propagates_nan twoEqualPriced (by decide) (by decide)).1⟩

/-- Claim C6: on a non-empty filtered subset of size `n`, the result list
handed to the renderer has length `min 3 n`, `total_matches` is reported
as `n` (the pre-truncation subset size), and exactly when `n > 3` the
response carries the sentence counting the `n - 3` matches not shown. -/
theorem top_three_and_total_matches (df : List Listing) (p : PreferenceRecord)
    (h : filterListings df p ≠ []) :
    (generateRecommendation df p).shownCount = min 3 (filterListings df p).length ∧
    (generateRecommendation df p).reportedMatches = some (filterListings df p).length ∧
    (generateRecommendation df p).moreLine =
      (if 3 < (filterListings df p).length
        then some (moreMessage ((filterListings df p).length - 3)) else none) := by
  have hne : (filterListings df p).isEmpty = false := by
    simpa [List.isEmpty_iff] using h
  simp [generateRecommendation, hne, Response.shownCount, Response.reportedMatches,
    Response.moreLine, List.length_take, sortScored, scoreSubset]

/-- Witness for C6: four listings, no constraints, so `n = 4`: three shown
and one more reported. -/
theorem top_three_and_total_matches_witness :
    (generateRecommendation fourListings emptyPreferences).shownCount =
      min 3 (filterListings fourListings emptyPreferences).length ∧
    (generateRecommendation fourListings emptyPreferences).reportedMatches =
      some (filterListings fourListings emptyPreferences).length ∧
    (generateRecommendation fourListings emptyPreferences).moreLine =
      (if 3 < (filterListings fourListings emptyPreferences).length
        then some (moreMessage ((filterListings fourListings emptyPreferences).length - 3))
        else none) :=
  top_three_and_total_matches fourListings emptyPreferences (by decide)

/-- Claim C7: on the text "I want a quick instant book under $200", with
any vocabularies none of whose entries occurs (lowercased) in the text,
the extractor yields budget = 200, instant_book = true, and the other
three fields unset. -/
theorem extract_quick_instant_book (neighborhoods roomTypes : List String)
    (_hn : ∀ v ∈ neighborhoods,
      containsSub (strLower "I want a quick instant book under $200") (strLower v) = false)
    (_hr : ∀ v ∈ roomTypes,
      containsSub (strLower "I want a quick instant book under $200") (strLower v) = false) :
    extractPreferences "I want a quick instant book under $200" neighborhoods roomTypes =
      { budget := some 200, neighborhood := none, room_type := none,
        min_rating := none, instant_book := some true } := by
  have h1 : budgetTrigger (strLower "I want a quick instant book under $200") = true := by
    decide
  have h2 : neighborhoodTrigger (strLower "I want a quick instant book under $200") = false := by
    decide
  have h3 : roomTrigger (strLower "I want a quick instant book under $200") = false := by
    decide
  have h4 : ratingTrigger (strLower "I want a quick instant book under $200") = false := by
    decide
  have h5 : instantTrigger (strLower "I want a quick instant book under $200") = true := by
    decide
  have h6 : firstNumber (strLower "I want a quick instant book under $200") = some 200 := by
    decide
  simp [extractPreferences, extractInto, h1, h2, h3, h4, h5, h6, emptyPreferences]

/-- Witness for C7 with a concrete NYC-like vocabulary. -/
theorem extract_quick_instant_book_witness :
    extractPreferences "I want a quick instant book under $200"
        ["Harlem", "Midtown"] ["Private room", "Entire home/apt"] =
      { budget := some 200, neighborhood := none, room_type := none,
        min_rating := none, instant_book := some true } :=
  extract_quick_instant_book ["Harlem", "Midtown"] ["Private room", "Entire home/apt"]
    (by decide) (by decide)

/-- After a call the store holds exactly one extra frame: line 91's copy. -/
theorem generateRecommendationH_length (s : Store) (dfRef : Nat) (p : PreferenceRecord) :
    (generateRecommendationH s dfRef p).1.length = s.length + 1 := by
  simp only [generateRecommendationH, Store.alloc]
  split <;> simp

/-- A single call never writes the cell of the loaded dataset. -/
theorem generateRecommendationH_frame (s : Store) (dfRef : Nat) (p : PreferenceRecord)
    (h : dfRef < s.length) :
    Store.get (generateRecommendationH s dfRef p).1 dfRef = Store.get s dfRef := by
  have hne : s.length ≠ dfRef := Nat.ne_of_gt h
  simp only [generateRecommendationH, Store.alloc, Store.get]
  split <;> simp [List.getElem?_set_ne hne, List.getElem?_append_left h]

/-- Claim C10: `generate_recommendation` never modifies the loaded
dataset — the frame at `dfRef` (all its rows and columns; a `base` frame
has no score columns by construction) is identical before and after a
call, and a successive query still reads the same dataset. -/
theorem dataset_unmodified_frame (s : Store) (dfRef : Nat) (p q : PreferenceRecord)
    (h : dfRef < s.length) :
    Store.get (generateRecommendationH s dfRef p).1 dfRef = Store.get s dfRef ∧
    Store.get (generateRecommendationH
        (generateRecommendationH s dfRef p).1 dfRef q).1 dfRef =
      Store.get s dfRef := by
  have h1 := generateRecommendationH_frame s dfRef p h
  have h2 : dfRef < (generateRecommendationH s dfRef p).1.length := by
    rw [generateRecommendationH_length]
    omega
  exact ⟨h1, (generateRecommendationH_frame _ dfRef q h2).trans h1⟩

/-- Witness for C10: a one-frame store holding four listings, queried
twice. -/
theorem dataset_unmodified_frame_witness :
    Store.get (generateRecommendationH [PyFrame.base fourListings] 0 emptyPreferences).1 0 =
      Store.get [PyFrame.base fourListings] 0 ∧
    Store.get (generateRecommendationH
        (generateRecommendationH [PyFrame.base fourListings] 0 emptyPreferences).1 0
        lowBudgetPref).1 0 =
      Store.get [PyFrame.base fourListings] 0 :=
  dataset_unmodified_frame [PyFrame.base fourListings] 0 emptyPreferences lowBudgetPref
    (by decide)

end Khe
